import Mathlib

/-!
Verification development for the Simbody `MobilizedBody` interface
(`sdk/include/SimTK/include/simbody/internal/MobilizedBody.h`).

The inline operators of that header are pure functions of already-realized
State-cache entries (X_GB, V_GB, A_GB per body).  We embed them shallowly:

* `Vec3`, `Mat33`, `Transform`, `SpatialVec` mirror the SimTK frame-algebra
  value types used by the header (`%` is the cross product, `~` is
  transpose/inverse, `X*p` applies a transform to a position vector).
* `BodyKin` packages the cached spatial quantities of one body that the
  response methods `getBodyTransform`, `getBodyVelocity` and
  `getBodyAcceleration` extract for an already-realized State; each inline
  operator of the header becomes a Lean function of the `BodyKin` records of
  the bodies it touches.
* Components that the header only declares (the staged cache guard, the
  multibody-tree bookkeeping, the q-fitting setters) are modelled from the
  repository specification; their doc comments say so explicitly.

Scalars are carried by an arbitrary commutative ring `α` (instantiated at `ℤ`
for concrete evaluations and at `ℝ` where Euclidean norms are involved),
which models exact arithmetic of the C++ `Real` values.
-/

set_option linter.unusedVariables false
set_option linter.unusedSectionVars false
set_option linter.unreachableTactic false
set_option linter.unusedTactic false

namespace Simbody

/-- Three-component vector, mirroring SimTK `Vec3`. -/
@[ext]
structure Vec3 (α : Type) where
  x : α
  y : α
  z : α
deriving DecidableEq

namespace Vec3

variable {α : Type} [CommRing α]

instance : Zero (Vec3 α) := ⟨⟨0, 0, 0⟩⟩

instance : Add (Vec3 α) := ⟨fun u v => ⟨u.x + v.x, u.y + v.y, u.z + v.z⟩⟩

instance : Neg (Vec3 α) := ⟨fun v => ⟨-v.x, -v.y, -v.z⟩⟩

instance : Sub (Vec3 α) := ⟨fun u v => ⟨u.x - v.x, u.y - v.y, u.z - v.z⟩⟩

/-- Dot product of two `Vec3`s (SimTK `dot`). -/
def dot (u v : Vec3 α) : α := u.x * v.x + u.y * v.y + u.z * v.z

/-- Cross product of two `Vec3`s (SimTK operator `%`). -/
def cross (u v : Vec3 α) : Vec3 α :=
  ⟨u.y * v.z - u.z * v.y, u.z * v.x - u.x * v.z, u.x * v.y - u.y * v.x⟩

/-- Scalar multiple of a `Vec3` (SimTK scalar `*` / division by a scalar). -/
def smul (c : α) (v : Vec3 α) : Vec3 α := ⟨c * v.x, c * v.y, c * v.z⟩

end Vec3

/-- Row-major 3×3 matrix, mirroring SimTK `Mat33`/`Rotation`. -/
@[ext]
structure Mat33 (α : Type) where
  r1 : Vec3 α
  r2 : Vec3 α
  r3 : Vec3 α
deriving DecidableEq

namespace Mat33

variable {α : Type} [CommRing α]

/-- Matrix-vector product. -/
def mulVec (M : Mat33 α) (v : Vec3 α) : Vec3 α :=
  ⟨M.r1.dot v, M.r2.dot v, M.r3.dot v⟩

/-- Transpose (SimTK operator `~` on a `Rotation`). -/
def transpose (M : Mat33 α) : Mat33 α :=
  ⟨⟨M.r1.x, M.r2.x, M.r3.x⟩, ⟨M.r1.y, M.r2.y, M.r3.y⟩, ⟨M.r1.z, M.r2.z, M.r3.z⟩⟩

/-- Matrix-matrix product. -/
def mul (M N : Mat33 α) : Mat33 α :=
  ⟨⟨M.r1.dot N.transpose.r1, M.r1.dot N.transpose.r2, M.r1.dot N.transpose.r3⟩,
   ⟨M.r2.dot N.transpose.r1, M.r2.dot N.transpose.r2, M.r2.dot N.transpose.r3⟩,
   ⟨M.r3.dot N.transpose.r1, M.r3.dot N.transpose.r2, M.r3.dot N.transpose.r3⟩⟩

/-- Identity matrix. -/
def one : Mat33 α := ⟨⟨1, 0, 0⟩, ⟨0, 1, 0⟩, ⟨0, 0, 1⟩⟩

/-- Determinant (triple product of the rows). -/
def det (M : Mat33 α) : α := M.r1.dot (M.r2.cross M.r3)

/-- Cofactor matrix: its rows are the pairwise cross products of the rows of
`M`, so that `cross (M v) (M w) = cof M (cross v w)` as a polynomial
identity. -/
def cof (M : Mat33 α) : Mat33 α :=
  ⟨M.r2.cross M.r3, M.r3.cross M.r1, M.r1.cross M.r2⟩

/-- Scalar multiple of a matrix. -/
def scale (c : α) (M : Mat33 α) : Mat33 α :=
  ⟨Vec3.smul c M.r1, Vec3.smul c M.r2, Vec3.smul c M.r3⟩

end Mat33

/-- Orthonormal, right-handed matrix: the properties the header assumes of a
`Rotation` when it uses `~R` as the inverse of `R`. -/
def IsRotation {α : Type} [CommRing α] (R : Mat33 α) : Prop :=
  R.mul R.transpose = Mat33.one ∧ R.transpose.mul R = Mat33.one ∧ R.det = 1

instance {α : Type} [CommRing α] [DecidableEq α] (R : Mat33 α) :
    Decidable (IsRotation R) := by
  unfold IsRotation
  exact instDecidableAnd

/-- Rigid transform: rotation part `R` and origin offset `p`, mirroring SimTK
`Transform` (`X_AB`).  Applying it to a position vector is `R*v + p`. -/
@[ext]
structure Transform (α : Type) where
  R : Mat33 α
  p : Vec3 α
deriving DecidableEq

namespace Transform

variable {α : Type} [CommRing α]

/-- Apply a transform to a station: `X*p` in SimTK notation. -/
def apply (X : Transform α) (v : Vec3 α) : Vec3 α := X.R.mulVec v + X.p

/-- Composition `X_AC = X_AB * X_BC`. -/
def compose (X Y : Transform α) : Transform α :=
  ⟨X.R.mul Y.R, X.R.mulVec Y.p + X.p⟩

/-- Inverse `~X` (SimTK operator `~`): uses the transpose of the rotation
part, exactly as the header does for orthonormal `R`. -/
def inv (X : Transform α) : Transform α :=
  ⟨X.R.transpose, -(X.R.transpose.mulVec X.p)⟩

/-- Identity transform. -/
def identity : Transform α := ⟨Mat33.one, 0⟩

end Transform

/-- Spatial vector: paired angular part and linear part, mirroring SimTK
`SpatialVec` where `V[0]` is angular and `V[1]` is linear. -/
@[ext]
structure SpatialVec (α : Type) where
  ang : Vec3 α
  lin : Vec3 α
deriving DecidableEq

/-- Realized state-cache entries for one body B, as extracted by the response
methods of the header: `getBodyTransform` (X_GB), `getBodyVelocity` (V_GB)
and `getBodyAcceleration` (A_GB).  The inline operators of the header are
pure functions of these records. -/
@[ext]
structure BodyKin (α : Type) where
  X : Transform α
  V : SpatialVec α
  A : SpatialVec α
deriving DecidableEq

section Operators

variable {α : Type} [CommRing α]

/-- Source `getBodyRotation`: the rotation part `R_GB` of the cached
`X_GB`. -/
def getBodyRotation (b : BodyKin α) : Mat33 α := b.X.R

/-- Source `getBodyOriginLocation`: the origin part `p_GB` of the cached
`X_GB`. -/
def getBodyOriginLocation (b : BodyKin α) : Vec3 α := b.X.p

/-- Source `getBodyAngularVelocity`: `w_GB = V_GB[0]`. -/
def getBodyAngularVelocity (b : BodyKin α) : Vec3 α := b.V.ang

/-- Source `getBodyOriginVelocity`: `v_GB = V_GB[1]`. -/
def getBodyOriginVelocity (b : BodyKin α) : Vec3 α := b.V.lin

/-- Source `getBodyAngularAcceleration`: `b_GB = A_GB[0]`. -/
def getBodyAngularAcceleration (b : BodyKin α) : Vec3 α := b.A.ang

/-- Source `getBodyOriginAcceleration`: `a_GB = A_GB[1]`. -/
def getBodyOriginAcceleration (b : BodyKin α) : Vec3 α := b.A.lin

/-- Source `expressVectorInGroundFrame`: `v_G = R_GB * v_B`. -/
def expressVectorInGroundFrame (b : BodyKin α) (vectorInB : Vec3 α) : Vec3 α :=
  (getBodyRotation b).mulVec vectorInB

/-- Source `expressGroundVectorInBodyFrame`: `v_B = ~R_GB * v_G`. -/
def expressGroundVectorInBodyFrame (b : BodyKin α) (vectorInG : Vec3 α) : Vec3 α :=
  (getBodyRotation b).transpose.mulVec vectorInG

/-- Source `expressVectorInAnotherBodyFrame`: re-express in Ground, then in
body A. -/
def expressVectorInAnotherBodyFrame (b : BodyKin α) (vectorInB : Vec3 α)
    (inBodyA : BodyKin α) : Vec3 α :=
  expressGroundVectorInBodyFrame inBodyA (expressVectorInGroundFrame b vectorInB)

/-- Source `findBodyTransformInAnotherBody`: `X_AB = ~X_GA * X_GB`. -/
def findBodyTransformInAnotherBody (b inBodyA : BodyKin α) : Transform α :=
  Transform.compose (Transform.inv inBodyA.X) b.X

/-- Source `findBodyRotationInAnotherBody`: `R_AB = ~R_GA * R_GB`. -/
def findBodyRotationInAnotherBody (b inBodyA : BodyKin α) : Mat33 α :=
  (getBodyRotation inBodyA).transpose.mul (getBodyRotation b)

/-- Source `findStationLocationInGround`: `p_GS = X_GB * p_BS`. -/
def findStationLocationInGround (b : BodyKin α) (stationOnB : Vec3 α) : Vec3 α :=
  Transform.apply b.X stationOnB

/-- Source `findStationAtGroundPoint`: `p_BS = ~X_GB * p_GS`. -/
def findStationAtGroundPoint (b : BodyKin α) (locationInG : Vec3 α) : Vec3 α :=
  Transform.apply (Transform.inv b.X) locationInG

/-- Source `findBodyOriginLocationInAnotherBody`: the station of A coincident
with B's origin, `toBodyA.findStationAtGroundPoint(s, getBodyOriginLocation(s))`. -/
def findBodyOriginLocationInAnotherBody (b toBodyA : BodyKin α) : Vec3 α :=
  findStationAtGroundPoint toBodyA (getBodyOriginLocation b)

/-- Source `findBodyVelocityInAnotherBody`: relative spatial velocity of B in
A, re-expressed in A, with the `wXr` correction on the linear part. -/
def findBodyVelocityInAnotherBody (b inBodyA : BodyKin α) : SpatialVec α :=
  let wABG := (getBodyAngularVelocity b) - (getBodyAngularVelocity inBodyA)
  let pABG := (getBodyOriginLocation b) - (getBodyOriginLocation inBodyA)
  let pABGdot := (getBodyOriginVelocity b) - (getBodyOriginVelocity inBodyA)
  let vABG := pABGdot - Vec3.cross (getBodyAngularVelocity inBodyA) pABG
  ⟨(getBodyRotation inBodyA).transpose.mulVec wABG,
   (getBodyRotation inBodyA).transpose.mulVec vABG⟩

/-- Source `findStationVelocityInGround`: `v + w % r` with
`r = expressVectorInGroundFrame(stationOnB)`. -/
def findStationVelocityInGround (b : BodyKin α) (stationOnB : Vec3 α) : Vec3 α :=
  let w := getBodyAngularVelocity b
  let v := getBodyOriginVelocity b
  let r := expressVectorInGroundFrame b stationOnB
  v + Vec3.cross w r

/-- Source `findStationAccelerationInGround`: `a + b % r + w % (w % r)`. -/
def findStationAccelerationInGround (b : BodyKin α) (stationOnB : Vec3 α) : Vec3 α :=
  let w := getBodyAngularVelocity b
  let bb := getBodyAngularAcceleration b
  let a := getBodyOriginAcceleration b
  let r := expressVectorInGroundFrame b stationOnB
  a + Vec3.cross bb r + Vec3.cross w (Vec3.cross w r)

/-- Source `findStationLocationAndVelocityInGround`: the fused
location-and-velocity operator. -/
def findStationLocationAndVelocityInGround (b : BodyKin α) (locationOnB : Vec3 α) :
    Vec3 α × Vec3 α :=
  let pGB := getBodyOriginLocation b
  let pBSG := expressVectorInGroundFrame b locationOnB
  let locationOnGround := pGB + pBSG
  let wGB := getBodyAngularVelocity b
  let vGB := getBodyOriginVelocity b
  let velocityInGround := vGB + Vec3.cross wGB pBSG
  (locationOnGround, velocityInGround)

/-- Source `findStationLocationVelocityAndAccelerationInGround`: the fused
location-velocity-acceleration operator. -/
def findStationLocationVelocityAndAccelerationInGround (b : BodyKin α)
    (locationOnB : Vec3 α) : Vec3 α × Vec3 α × Vec3 α :=
  let rGB := getBodyRotation b
  let pGB := getBodyOriginLocation b
  let r := rGB.mulVec locationOnB
  let locationOnGround := pGB + r
  let w := getBodyAngularVelocity b
  let v := getBodyOriginVelocity b
  let bb := getBodyAngularAcceleration b
  let a := getBodyOriginAcceleration b
  let wXr := Vec3.cross w r
  let velocityInGround := v + wXr
  let accelerationInGround := a + Vec3.cross bb r + Vec3.cross w wXr
  (locationOnGround, velocityInGround, accelerationInGround)

end Operators

section SpatialCombinators

variable {α : Type} [CommRing α]

/-- Negation of a spatial vector (componentwise). -/
def negSpatial (V : SpatialVec α) : SpatialVec α := ⟨-V.ang, -V.lin⟩

/-- Re-expression of a spatial vector in another basis: the rotation is
applied to both the angular and the linear part, as in the header idiom
`~X_GA.R()*SpatialVec(w,v)`. -/
def reexpressSpatial (R : Mat33 α) (V : SpatialVec α) : SpatialVec α :=
  ⟨R.mulVec V.ang, R.mulVec V.lin⟩

/-- Rigid shift of a spatial vector to a new reference point: the linear part
changes by `ω × r` (the transport rule `v' = v + ω × r` the specification
states for spatial vectors). -/
def shiftSpatial (V : SpatialVec α) (r : Vec3 α) : SpatialVec α :=
  ⟨V.ang, V.lin + Vec3.cross V.ang r⟩

end SpatialCombinators

/-- Error kinds of the specification: stage violations, topology errors,
index errors, and the explicit failure of the unimplemented operators
(`SimTK_ASSERT_ALWAYS(!"unimplemented method", ...)` in the header). -/
inductive SimbodyError where
  | StageViolation
  | TopologyError
  | IndexOutOfRange
  | UnimplementedMethod
deriving DecidableEq

/-- Modelled from the spec: the strict total order of cache stages
`Topology < Model < Instance < Time < Position < Velocity < Dynamics <
Acceleration` (the realize/invalidate machinery itself is only declared by
the header; its semantics comes from the specification). -/
inductive Stage where
  | Topology
  | Model
  | Instance
  | Time
  | Position
  | Velocity
  | Dynamics
  | Acceleration
deriving DecidableEq

/-- Numeric rank of a stage in the total order. -/
def Stage.toNat : Stage → Nat
  | .Topology => 0
  | .Model => 1
  | .Instance => 2
  | .Time => 3
  | .Position => 4
  | .Velocity => 5
  | .Dynamics => 6
  | .Acceleration => 7

/-- Modelled from the spec: a State as seen by one body's response methods —
a per-stage validity ceiling plus the cached quantities.  The cache content
is represented by the cached `X_GB` of the queried body (the quantity
`getBodyTransform` returns). -/
structure SimState (α : Type) where
  ceiling : Stage
  xGB : Transform α
deriving DecidableEq

/-- Modelled from the spec: reading a cached quantity defined at stage
`stage` requires `stage` to be currently valid; otherwise the read fails
with `StageViolation` and never silently triggers computation. -/
def readCachedQuantity {α β : Type} (s : SimState α) (stage : Stage) (value : β) :
    Except SimbodyError β :=
  if stage.toNat ≤ s.ceiling.toNat then Except.ok value
  else Except.error SimbodyError.StageViolation

/-- Modelled from the spec: `getBodyTransform` extracts the cached `X_GB`,
a quantity available at Position stage, guarded by the stage check. -/
def getBodyTransform {α : Type} (s : SimState α) : Except SimbodyError (Transform α) :=
  readCachedQuantity s Stage.Position s.xGB

section Stubs

variable {α : Type}

/-- Source `getMobilizerAcceleration`: the body is an always-failing
assertion (`SimTK_ASSERT_ALWAYS(!"unimplemented method", ...)`), modelled as
returning the `UnimplementedMethod` error on every input. -/
def getMobilizerAcceleration (s : SimState α) : Except SimbodyError (SpatialVec α) :=
  Except.error SimbodyError.UnimplementedMethod

/-- Source `calcBodyMovingPointVelocityInBody`: always-failing assertion. -/
def calcBodyMovingPointVelocityInBody (s : SimState α)
    (locationOnBodyB velocityOnBodyB : Vec3 α) (inBodyA : BodyKin α) :
    Except SimbodyError (Vec3 α) :=
  Except.error SimbodyError.UnimplementedMethod

/-- Source `calcBodyMovingPointAccelerationInBody`: always-failing
assertion. -/
def calcBodyMovingPointAccelerationInBody (s : SimState α)
    (locationOnBodyB velocityOnBodyB accelerationOnBodyB : Vec3 α)
    (inBodyA : BodyKin α) : Except SimbodyError (Vec3 α) :=
  Except.error SimbodyError.UnimplementedMethod

/-- Source `calcMovingPointToPointDistanceTimeDerivative`: always-failing
assertion. -/
def calcMovingPointToPointDistanceTimeDerivative (s : SimState α)
    (locationOnBodyB velocityOnBodyB : Vec3 α) (bodyA : BodyKin α)
    (locationOnBodyA velocityOnBodyA : Vec3 α) : Except SimbodyError α :=
  Except.error SimbodyError.UnimplementedMethod

/-- Source `calcMovingPointToPointDistance2ndTimeDerivative`: always-failing
assertion. -/
def calcMovingPointToPointDistance2ndTimeDerivative (s : SimState α)
    (locationOnBodyB velocityOnBodyB accelerationOnBodyB : Vec3 α)
    (bodyA : BodyKin α)
    (locationOnBodyA velocityOnBodyA accelerationOnBodyA : Vec3 α) :
    Except SimbodyError α :=
  Except.error SimbodyError.UnimplementedMethod

end Stubs

/-! Multibody-tree bookkeeping.  The header guarantees (doc comments of
`getMobilizedBodyIndex` and `getLevelInMultibodyTree`) that a body's index is
numerically larger than its parent's and that levels are graph distances from
Ground; the construction code itself is not part of this repository, so the
tree is modelled from the specification (§4.3): an arena of nodes indexed by
position, each non-Ground node storing its parent's index. -/

/-- A multibody tree: entry `i` is node `i`'s parent index (`none` for
Ground).  Modelled from the spec. -/
abbrev MbTree : Type := List (Option Nat)

/-- Modelled from the spec: a tree starts with only Ground, which has
index 0 and no parent. -/
def groundOnlyTree : MbTree := [none]

/-- Modelled from the spec: `addBody(parentIndex, ...)` appends a new node
with the next index and fails with `TopologyError` if `parentIndex` is not an
already-existing node. -/
def addBody (t : MbTree) (parentIndex : Nat) : Except SimbodyError MbTree :=
  if parentIndex < t.length then Except.ok (t ++ [some parentIndex])
  else Except.error SimbodyError.TopologyError

/-- Build a tree by a sequence of `addBody` operations starting from the
Ground-only tree. -/
def buildTree (ops : List Nat) : Except SimbodyError MbTree :=
  ops.foldl (fun acc parentIndex => acc.bind (fun t => addBody t parentIndex))
    (Except.ok groundOnlyTree)

/-- Parent accessor: `none` when the node is Ground or out of range. -/
def parentIndex (t : MbTree) (i : Nat) : Option Nat :=
  (List.get? t i).bind (fun pr => pr)

/-- Fuel-driven level computation: Ground is at level 0 and every other node
is one level below its parent. -/
def levelAux : Nat → MbTree → Nat → Nat
  | 0, _, _ => 0
  | fuel + 1, t, i =>
    match List.get? t i with
    | some (some p) => levelAux fuel t p + 1
    | _ => 0

/-- Source `getLevelInMultibodyTree`, modelled from the spec: tree depth with
Ground at 0, derivable once the topology is final. -/
def getLevelInMultibodyTree (t : MbTree) (i : Nat) : Nat :=
  levelAux (i + 1) t i

/-- The index invariant of the tree: Ground is node 0 with no parent, and
every other node stores a parent index strictly smaller than its own. -/
def TreeInvariant (t : MbTree) : Prop :=
  List.get? t 0 = some none ∧
  ∀ i, 0 < i → i < t.length → ∃ p, List.get? t i = some (some p) ∧ p < i

/-! Mobilizer q-fitting setters.  The setter implementations are not part of
this repository; the header documents that they never throw ("These routines
do not throw exceptions even for absurd requests like specifying a rotation
for a sliding mobilizer"), that `setQToFitTranslation` may modify any q's,
rotational ones included, "if doing so helps satisfy the request", and that
nothing happens when there are no mobilities; the specification adds that a
rotational-only setter on a purely translational joint is a no-op.  The
fitting numerics are left abstract as a function parameter. -/

/-- Built-in joint kinds used to classify coordinates (spec §4.2/§9). -/
inductive JointKind where
  | Pin
  | Slider
  | Ball
  | Translation
  | Weld
deriving DecidableEq

/-- Number of rotational generalized coordinates of a joint kind. -/
def numRotQ : JointKind → Nat
  | .Pin => 1
  | .Ball => 3
  | _ => 0

/-- Number of translational generalized coordinates of a joint kind. -/
def numTransQ : JointKind → Nat
  | .Slider => 1
  | .Translation => 3
  | _ => 0

/-- Total number of generalized coordinates of a joint kind. -/
def numQ (k : JointKind) : Nat := numRotQ k + numTransQ k

/-- Modelled from the spec: `setQToFitRotation` adjusts the rotational q's
(via the abstract fitting map `fitR`) when the joint has any, is a no-op on
a joint without rotational coordinates, and never raises an error. -/
def setQToFitRotation {σ : Type} (fitR : List σ → List σ) (k : JointKind)
    (q : List σ) : Except SimbodyError (List σ) :=
  Except.ok (if 0 < numRotQ k then fitR q else q)

/-- Modelled from the spec and the header doc: `setQToFitTranslation` may
modify any q's (rotational or translational, via the abstract fitting map
`fitT`) if doing so helps satisfy the request, does nothing when the
mobilizer has no mobilities, and never raises an error. -/
def setQToFitTranslation {σ : Type} (fitT : List σ → List σ) (k : JointKind)
    (q : List σ) : Except SimbodyError (List σ) :=
  Except.ok (if 0 < numQ k then fitT q else q)

/-! Station-to-station distance operators.  These involve Euclidean norms, so
they are embedded over `ℝ`; the `d==0` / `s==0` branches of the header are
exact comparisons on the (ideal) real values. -/

/-- Euclidean norm of a `Vec3 ℝ` (SimTK `Vec3::norm`). -/
noncomputable def norm3 (v : Vec3 ℝ) : ℝ := Real.sqrt (Vec3.dot v v)

/-- Source `calcStationToStationDistance`: `|p_PB_PA|`, with the same-body
short-circuit (`isSameMobilizedBody`, modelled by the `same` flag). -/
noncomputable def calcStationToStationDistance (same : Bool) (b bodyA : BodyKin ℝ)
    (locationOnBodyB locationOnBodyA : Vec3 ℝ) : ℝ :=
  if same then norm3 (locationOnBodyA - locationOnBodyB)
  else
    let rGoPB := findStationLocationInGround b locationOnBodyB
    let rGoPA := findStationLocationInGround bodyA locationOnBodyA
    norm3 (rGoPA - rGoPB)

/-- Source `calcStationToStationDistanceTimeDerivative`: rate of change of
the distance between two fixed stations, with the documented coincident-point
limiting case (`if (d==0) return v.norm()`). -/
noncomputable def calcStationToStationDistanceTimeDerivative (same : Bool)
    (b bodyA : BodyKin ℝ) (locationOnBodyB locationOnBodyA : Vec3 ℝ) : ℝ :=
  if same then 0
  else
    let rBvB := findStationLocationAndVelocityInGround b locationOnBodyB
    let rAvA := findStationLocationAndVelocityInGround bodyA locationOnBodyA
    let r := rAvA.1 - rBvB.1
    let v := rAvA.2 - rBvB.2
    let d := norm3 r
    if d = 0 then norm3 v else Vec3.dot v (Vec3.smul d⁻¹ r)

/-- Source `calcStationToStationDistance2ndTimeDerivative`: second time
derivative of the distance, with the documented limiting cases for
coincident points (`d==0`) and zero relative speed (`s==0`). -/
noncomputable def calcStationToStationDistance2ndTimeDerivative (same : Bool)
    (b bodyA : BodyKin ℝ) (locationOnBodyB locationOnBodyA : Vec3 ℝ) : ℝ :=
  if same then 0
  else
    let t3B := findStationLocationVelocityAndAccelerationInGround b locationOnBodyB
    let t3A := findStationLocationVelocityAndAccelerationInGround bodyA locationOnBodyA
    let r := t3A.1 - t3B.1
    let v := t3A.2.1 - t3B.2.1
    let a := t3A.2.2 - t3B.2.2
    let d := norm3 r
    if d = 0 then
      let sp := norm3 v
      if sp = 0 then norm3 a else Vec3.dot a (Vec3.smul sp⁻¹ v)
    else
      let u := Vec3.smul d⁻¹ r
      let vp := v - Vec3.smul (Vec3.dot v u) u
      Vec3.dot a u + Vec3.dot vp v / d

/-! Concrete cache records used to evaluate the theorems on explicit
inputs. -/

/-- A body at rest at the Ground origin with identity orientation. -/
def idKin : BodyKin ℤ := ⟨⟨Mat33.one, 0⟩, ⟨0, 0⟩, ⟨0, 0⟩⟩

/-- A body offset one unit along x, spinning about the Ground z axis. -/
def spinKin : BodyKin ℤ := ⟨⟨Mat33.one, ⟨1, 0, 0⟩⟩, ⟨⟨0, 0, 1⟩, 0⟩, ⟨0, 0⟩⟩

/-- A body at rest at the Ground origin with identity orientation, over `ℝ`. -/
def idKinR : BodyKin ℝ := ⟨⟨Mat33.one, 0⟩, ⟨0, 0⟩, ⟨0, 0⟩⟩

/-! ### Frame-algebra lemmas -/

namespace Vec3

variable {α : Type} [CommRing α]

@[simp] lemma zero_x : (0 : Vec3 α).x = 0 := rfl
@[simp] lemma zero_y : (0 : Vec3 α).y = 0 := rfl
@[simp] lemma zero_z : (0 : Vec3 α).z = 0 := rfl
@[simp] lemma add_x (u v : Vec3 α) : (u + v).x = u.x + v.x := rfl
@[simp] lemma add_y (u v : Vec3 α) : (u + v).y = u.y + v.y := rfl
@[simp] lemma add_z (u v : Vec3 α) : (u + v).z = u.z + v.z := rfl
@[simp] lemma neg_x (v : Vec3 α) : (-v).x = -v.x := rfl
@[simp] lemma neg_y (v : Vec3 α) : (-v).y = -v.y := rfl
@[simp] lemma neg_z (v : Vec3 α) : (-v).z = -v.z := rfl
@[simp] lemma sub_x (u v : Vec3 α) : (u - v).x = u.x - v.x := rfl
@[simp] lemma sub_y (u v : Vec3 α) : (u - v).y = u.y - v.y := rfl
@[simp] lemma sub_z (u v : Vec3 α) : (u - v).z = u.z - v.z := rfl

end Vec3

namespace Mat33

variable {α : Type} [CommRing α]

lemma mul_assoc (M N P : Mat33 α) : (M.mul N).mul P = M.mul (N.mul P) := by
  ext <;> simp [mul, transpose, Vec3.dot] <;> ring

@[simp] lemma mul_one (M : Mat33 α) : M.mul one = M := by
  ext <;> simp [mul, one, transpose, Vec3.dot]

@[simp] lemma one_mul (M : Mat33 α) : one.mul M = M := by
  ext <;> simp [mul, one, transpose, Vec3.dot]

@[simp] lemma transpose_transpose (M : Mat33 α) : M.transpose.transpose = M := by
  ext <;> simp [transpose]

lemma transpose_mul (M N : Mat33 α) :
    (M.mul N).transpose = N.transpose.mul M.transpose := by
  ext <;> simp [mul, transpose, Vec3.dot] <;> ring

@[simp] lemma one_mulVec (v : Vec3 α) : one.mulVec v = v := by
  ext <;> simp [mulVec, one, Vec3.dot]

lemma mulVec_mulVec (M N : Mat33 α) (v : Vec3 α) :
    M.mulVec (N.mulVec v) = (M.mul N).mulVec v := by
  ext <;> simp [mulVec, mul, transpose, Vec3.dot] <;> ring

lemma mulVec_add (M : Mat33 α) (u v : Vec3 α) :
    M.mulVec (u + v) = M.mulVec u + M.mulVec v := by
  ext <;> simp [mulVec, Vec3.dot] <;> ring

lemma mulVec_neg (M : Mat33 α) (v : Vec3 α) : M.mulVec (-v) = -(M.mulVec v) := by
  ext <;> simp [mulVec, Vec3.dot] <;> ring

lemma mulVec_sub (M : Mat33 α) (u v : Vec3 α) :
    M.mulVec (u - v) = M.mulVec u - M.mulVec v := by
  ext <;> simp [mulVec, Vec3.dot] <;> ring

@[simp] lemma mulVec_zero (M : Mat33 α) : M.mulVec (0 : Vec3 α) = 0 := by
  ext <;> simp [mulVec, Vec3.dot]

lemma det_transpose (M : Mat33 α) : M.transpose.det = M.det := by
  simp [det, transpose, Vec3.dot, Vec3.cross]; ring

/-- Binet-Cauchy: the cross product of two images under `M` is the cofactor
matrix applied to the cross product.  Pure polynomial identity. -/
lemma cross_mulVec_cof (M : Mat33 α) (u v : Vec3 α) :
    Vec3.cross (M.mulVec u) (M.mulVec v) = M.cof.mulVec (u.cross v) := by
  ext <;> simp [mulVec, cof, Vec3.dot, Vec3.cross] <;> ring

lemma det_mul (M N : Mat33 α) : (M.mul N).det = M.det * N.det := by
  simp [det, mul, transpose, Vec3.dot, Vec3.cross]; ring

/-- Classical adjugate identity `(cof M)ᵀ ⬝ M = det M · 1` as a polynomial
identity on the nine entries. -/
lemma cof_transpose_mul (M : Mat33 α) :
    (M.cof.transpose).mul M = scale M.det one := by
  ext <;> simp [mul, cof, transpose, scale, det, one, Vec3.dot, Vec3.cross, Vec3.smul] <;> ring

@[simp] lemma scale_one_one : scale (1 : α) one = one := by
  ext <;> simp [scale, one, Vec3.smul]

end Mat33

lemma IsRotation.transpose {α : Type} [CommRing α] {R : Mat33 α}
    (h : IsRotation R) : IsRotation R.transpose := by
  refine ⟨?_, ?_, ?_⟩
  · simpa [Mat33.transpose_transpose] using h.2.1
  · simpa [Mat33.transpose_transpose] using h.1
  · rw [Mat33.det_transpose]; exact h.2.2

lemma IsRotation.mul {α : Type} [CommRing α] {M N : Mat33 α}
    (hM : IsRotation M) (hN : IsRotation N) : IsRotation (M.mul N) := by
  refine ⟨?_, ?_, ?_⟩
  · rw [Mat33.transpose_mul, Mat33.mul_assoc, ← Mat33.mul_assoc N, hN.1,
      Mat33.one_mul, hM.1]
  · rw [Mat33.transpose_mul, Mat33.mul_assoc, ← Mat33.mul_assoc M.transpose,
      hM.2.1, Mat33.one_mul, hN.2.1]
  · rw [Mat33.det_mul, hM.2.2, hN.2.2, one_mul]

/-- With orthonormality and unit determinant the cofactor matrix of a rotation
is the rotation itself. -/
lemma Mat33.cof_of_isRotation {α : Type} [CommRing α] {R : Mat33 α}
    (h : IsRotation R) : R.cof = R := by
  have h1 : (R.cof.transpose).mul R = Mat33.one := by
    rw [Mat33.cof_transpose_mul, h.2.2, Mat33.scale_one_one]
  have h2 : R.cof.transpose = R.transpose := by
    calc R.cof.transpose = (R.cof.transpose).mul (R.mul R.transpose) := by
          rw [h.1, Mat33.mul_one]
      _ = ((R.cof.transpose).mul R).mul R.transpose := by rw [Mat33.mul_assoc]
      _ = R.transpose := by rw [h1, Mat33.one_mul]
  calc R.cof = R.cof.transpose.transpose := (Mat33.transpose_transpose _).symm
    _ = R.transpose.transpose := by rw [h2]
    _ = R := Mat33.transpose_transpose _

/-- A proper rotation commutes with the cross product. -/
lemma Mat33.cross_mulVec {α : Type} [CommRing α] {R : Mat33 α}
    (h : IsRotation R) (u v : Vec3 α) :
    Vec3.cross (R.mulVec u) (R.mulVec v) = R.mulVec (u.cross v) := by
  rw [Mat33.cross_mulVec_cof, Mat33.cof_of_isRotation h]

lemma Transform.compose_inv {α : Type} [CommRing α] (X : Transform α)
    (h : IsRotation X.R) : X.compose X.inv = Transform.identity := by
  unfold Transform.compose Transform.inv Transform.identity
  refine Transform.ext ?_ ?_
  · exact h.1
  · rw [Mat33.mulVec_neg, Mat33.mulVec_mulVec, h.1, Mat33.one_mulVec]
    ext <;> simp

lemma Transform.inv_compose {α : Type} [CommRing α] (X : Transform α)
    (h : IsRotation X.R) : X.inv.compose X = Transform.identity := by
  unfold Transform.compose Transform.inv Transform.identity
  refine Transform.ext ?_ ?_
  · exact h.2.1
  · ext <;> simp [Mat33.mulVec, Vec3.dot] <;> ring

/-! ### Relating the fused station operators to the separate ones -/

lemma findStationLocationAndVelocityInGround_eq {α : Type} [CommRing α]
    (b : BodyKin α) (p : Vec3 α) :
    findStationLocationAndVelocityInGround b p =
      (findStationLocationInGround b p, findStationVelocityInGround b p) := by
  unfold findStationLocationAndVelocityInGround findStationLocationInGround
    findStationVelocityInGround Transform.apply
  refine Prod.ext ?_ rfl
  ext <;> simp [expressVectorInGroundFrame, getBodyRotation, getBodyOriginLocation,
    Mat33.mulVec, Vec3.dot] <;> ring

lemma findStationLocationVelocityAndAccelerationInGround_eq {α : Type} [CommRing α]
    (b : BodyKin α) (p : Vec3 α) :
    findStationLocationVelocityAndAccelerationInGround b p =
      (findStationLocationInGround b p, findStationVelocityInGround b p,
       findStationAccelerationInGround b p) := by
  unfold findStationLocationVelocityAndAccelerationInGround
    findStationLocationInGround findStationVelocityInGround
    findStationAccelerationInGround Transform.apply
  refine Prod.ext ?_ (Prod.ext rfl rfl)
  ext <;> simp [expressVectorInGroundFrame, getBodyRotation, getBodyOriginLocation,
    Mat33.mulVec, Vec3.dot] <;> ring

/-! ### Claim theorems -/

/-- Claim C5: for every realized body B and station p fixed on B, the
ground-frame station velocity returned by `findStationVelocityInGround`
equals the body origin's linear velocity plus the cross product of the
body's angular velocity with the station offset re-expressed in Ground:
`v_GB + w_GB × (R_GB·p)`. -/
theorem C5_station_velocity_rigid_shift {α : Type} [CommRing α]
    (b : BodyKin α) (p : Vec3 α) :
    findStationVelocityInGround b p =
      b.V.lin + Vec3.cross b.V.ang (Mat33.mulVec b.X.R p) := rfl

/-- Claim C9: the fused operators `findStationLocationAndVelocityInGround`
and `findStationLocationVelocityAndAccelerationInGround` return exactly the
values of the corresponding separate calls to `findStationLocationInGround`,
`findStationVelocityInGround` and `findStationAccelerationInGround`. -/
theorem C9_fused_equals_separate {α : Type} [CommRing α]
    (b : BodyKin α) (p : Vec3 α) :
    findStationLocationAndVelocityInGround b p =
      (findStationLocationInGround b p, findStationVelocityInGround b p) ∧
    findStationLocationVelocityAndAccelerationInGround b p =
      (findStationLocationInGround b p, findStationVelocityInGround b p,
       findStationAccelerationInGround b p) :=
  ⟨findStationLocationAndVelocityInGround_eq b p,
   findStationLocationVelocityAndAccelerationInGround_eq b p⟩

/-- Claim C6: every unimplemented derived-quantity operator
(`getMobilizerAcceleration` and the moving-point operators) signals
`UnimplementedMethod` on every input instead of returning a numeric
value. -/
theorem C6_unimplemented_operators_fail {α : Type} (s : SimState α)
    (pB vB aB pA vA aA : Vec3 α) (bodyA : BodyKin α) :
    getMobilizerAcceleration s = Except.error SimbodyError.UnimplementedMethod ∧
    calcBodyMovingPointVelocityInBody s pB vB bodyA =
      Except.error SimbodyError.UnimplementedMethod ∧
    calcBodyMovingPointAccelerationInBody s pB vB aB bodyA =
      Except.error SimbodyError.UnimplementedMethod ∧
    calcMovingPointToPointDistanceTimeDerivative s pB vB bodyA pA vA =
      Except.error SimbodyError.UnimplementedMethod ∧
    calcMovingPointToPointDistance2ndTimeDerivative s pB vB aB bodyA pA vA aA =
      Except.error SimbodyError.UnimplementedMethod :=
  ⟨rfl, rfl, rfl, rfl, rfl⟩

/-- Claim C1: on a State whose validity ceiling is below Position (e.g. a
freshly constructed, topology-finalized State on which realize(Position) has
not been called), `getBodyTransform` fails with `StageViolation` instead of
silently computing; in general a cached quantity defined at stage S reads
back successfully exactly when S is currently valid, and otherwise fails
with `StageViolation`. -/
theorem C1_stage_guarded_reads {α : Type} (s : SimState α)
    (h : s.ceiling.toNat < Stage.Position.toNat) :
    getBodyTransform s = Except.error SimbodyError.StageViolation ∧
    (∀ (β : Type) (stage : Stage) (v : β),
      readCachedQuantity s stage v = Except.ok v ↔ stage.toNat ≤ s.ceiling.toNat) ∧
    (∀ (β : Type) (stage : Stage) (v : β),
      readCachedQuantity s stage v = Except.error SimbodyError.StageViolation ↔
        ¬ stage.toNat ≤ s.ceiling.toNat) := by
  refine ⟨?_, ?_, ?_⟩
  · unfold getBodyTransform readCachedQuantity
    rw [if_neg (Nat.not_le.mpr h)]
  · intro β stage v
    unfold readCachedQuantity
    split
    · simp [*]
    · simp [*]
  · intro β stage v
    unfold readCachedQuantity
    split
    · simp [*]
    · simp [*]

/-- Witness for C1: a topology-finalized State (ceiling `Topology`) rejects
`getBodyTransform` with `StageViolation`. -/
theorem C1_witness :
    Stage.toNat Stage.Topology < Stage.toNat Stage.Position ∧
    getBodyTransform (SimState.mk Stage.Topology (Transform.identity : Transform ℤ)) =
      Except.error SimbodyError.StageViolation :=
  ⟨by decide,
   (C1_stage_guarded_reads (SimState.mk Stage.Topology Transform.identity) (by decide)).1⟩

/-- Counterexample for C8 as stated: the header documents that translational
fitting setters "may use rotational coordinates to help satisfy the
translation requirement", so a translational-only setter on the purely
rotational Pin joint need not be a no-op; with a fitting map that uses the
rotational coordinate (as permitted), the call changes q. -/
theorem C8_counterexample :
    setQToFitTranslation (fun _ => [(1 : ℤ)]) JointKind.Pin [0] ≠
      Except.ok [(0 : ℤ)] := by
  intro h
  simp [setQToFitTranslation, numQ, numRotQ, numTransQ] at h

/-- Claim C8 (amended): a rotational-only fitting setter on a mobilizer with
no rotational coordinates is a no-op; fitting setters never raise an error
(they always return ok, and callers probe success by re-reading the
returned q); a translational setter may modify any coordinates but does
nothing when the mobilizer has no mobilities at all. -/
theorem C8_fitting_setters_no_error {σ : Type} (fitR fitT : List σ → List σ)
    (k : JointKind) (q : List σ) :
    (numRotQ k = 0 → setQToFitRotation fitR k q = Except.ok q) ∧
    (∃ r, setQToFitRotation fitR k q = Except.ok r) ∧
    (∃ r, setQToFitTranslation fitT k q = Except.ok r) ∧
    (numQ k = 0 → setQToFitTranslation fitT k q = Except.ok q) := by
  refine ⟨?_, ?_, ?_, ?_⟩
  · intro h
    unfold setQToFitRotation
    rw [h]
    simp
  · exact ⟨_, rfl⟩
  · exact ⟨_, rfl⟩
  · intro h
    unfold setQToFitTranslation
    rw [h]
    simp

/-- Witness for C8: a rotational fitting request on the purely translational
Slider joint leaves the coordinates untouched and raises no error. -/
theorem C8_witness :
    setQToFitRotation (fun l => List.map (fun x => x + 1) l) JointKind.Slider
      [(0 : ℤ)] = Except.ok [(0 : ℤ)] :=
  (C8_fitting_setters_no_error (fun l => List.map (fun x => x + 1) l)
    (fun l => l) JointKind.Slider [(0 : ℤ)]).1 rfl

/-- Claim C10: `findStationLocationInGround` applies `X_GB` and
`findStationAtGroundPoint` applies its inverse, so for an orthonormal cached
rotation the two operators are mutual round-trip inverses on stations and on
ground points. -/
theorem C10_station_ground_roundtrip {α : Type} [CommRing α] (b : BodyKin α)
    (hR : IsRotation b.X.R) (p g : Vec3 α) :
    findStationAtGroundPoint b (findStationLocationInGround b p) = p ∧
    findStationLocationInGround b (findStationAtGroundPoint b g) = g := by
  constructor
  · unfold findStationAtGroundPoint findStationLocationInGround Transform.apply
      Transform.inv
    simp only [Mat33.mulVec_add, Mat33.mulVec_mulVec, hR.2.1, Mat33.one_mulVec]
    ext <;> simp <;> ring
  · unfold findStationAtGroundPoint findStationLocationInGround Transform.apply
      Transform.inv
    simp only [Mat33.mulVec_add, Mat33.mulVec_neg, Mat33.mulVec_mulVec, hR.1,
      Mat33.one_mulVec]
    ext <;> simp <;> ring

/-- Witness for C10: round trip of the station (1,2,3) through Ground on a
concrete body. -/
theorem C10_witness :
    IsRotation (Mat33.one : Mat33 ℤ) ∧
    findStationAtGroundPoint spinKin
      (findStationLocationInGround spinKin ⟨1, 2, 3⟩) = ⟨1, 2, 3⟩ :=
  ⟨by decide, (C10_station_ground_roundtrip spinKin (by decide) ⟨1, 2, 3⟩ 0).1⟩

/-- Claim C4: the relative transform `X_AB = ~X_GA*X_GB` returned by
`findBodyTransformInAnotherBody` composed with the mirrored call (which
computes `X_BA`) gives the identity in either order, and its `~` inverse is
exactly the mirrored call, for orthonormal cached rotations. -/
theorem C4_relative_transform_roundtrip {α : Type} [CommRing α]
    (b a : BodyKin α) (hA : IsRotation a.X.R) (hB : IsRotation b.X.R) :
    Transform.compose (findBodyTransformInAnotherBody b a)
        (findBodyTransformInAnotherBody a b) = Transform.identity ∧
    Transform.compose (findBodyTransformInAnotherBody a b)
        (findBodyTransformInAnotherBody b a) = Transform.identity ∧
    Transform.inv (findBodyTransformInAnotherBody b a) =
      findBodyTransformInAnotherBody a b := by
  have hrot : IsRotation (findBodyTransformInAnotherBody b a).R :=
    hA.transpose.mul hB
  have hinv : Transform.inv (findBodyTransformInAnotherBody b a) =
      findBodyTransformInAnotherBody a b := by
    unfold findBodyTransformInAnotherBody Transform.compose Transform.inv
    refine Transform.ext ?_ ?_
    · rw [Mat33.transpose_mul, Mat33.transpose_transpose]
    · simp only [Mat33.transpose_mul, Mat33.transpose_transpose,
        Mat33.mulVec_add, Mat33.mulVec_neg, Mat33.mulVec_mulVec,
        Mat33.mul_assoc, hA.1, Mat33.mul_one]
      ext <;> simp <;> ring
  refine ⟨?_, ?_, hinv⟩
  · rw [← hinv]
    exact Transform.compose_inv _ hrot
  · rw [← hinv]
    exact Transform.inv_compose _ hrot

/-- Witness for C4: the round trip between two concrete bodies yields the
identity transform. -/
theorem C4_witness :
    IsRotation (spinKin.X.R) ∧ IsRotation (idKin.X.R) ∧
    Transform.compose (findBodyTransformInAnotherBody spinKin idKin)
      (findBodyTransformInAnotherBody idKin spinKin) = Transform.identity :=
  ⟨by decide, by decide,
   (C4_relative_transform_roundtrip spinKin idKin (by decide) (by decide)).1⟩

/-- Counterexample for C3 as stated: negating the mirrored
`findBodyVelocityInAnotherBody` result and re-expressing it (rotating both
spatial components, the header's notion of re-expression) does not reproduce
the forward result when the bodies' origins are offset and their angular
velocities differ: the linear parts disagree by the `ω × r` shift term.
Here B is offset one unit along x and spins about z while A is at rest. -/
theorem C3_counterexample :
    findBodyVelocityInAnotherBody spinKin idKin ≠
      reexpressSpatial (findBodyRotationInAnotherBody spinKin idKin)
        (negSpatial (findBodyVelocityInAnotherBody idKin spinKin)) := by
  decide

/-- Claim C3 (amended): the two perspectives of
`findBodyVelocityInAnotherBody` are inverses once the reference point is
accounted for: the forward result equals the mirrored result negated,
re-expressed from B's frame into A's frame, and then shifted from A's origin
to B's origin by the rigid-shift rule (`v' = v + ω × r` with `r` the station
of A coincident with B's origin, i.e. `findBodyOriginLocationInAnotherBody`). -/
theorem C3_velocity_symmetry_with_shift {α : Type} [CommRing α]
    (b a : BodyKin α) (hA : IsRotation a.X.R) (hB : IsRotation b.X.R) :
    findBodyVelocityInAnotherBody b a =
      shiftSpatial
        (negSpatial (reexpressSpatial (findBodyRotationInAnotherBody b a)
          (findBodyVelocityInAnotherBody a b)))
        (findBodyOriginLocationInAnotherBody b a) := by
  have hcol : ∀ v : Vec3 α,
      (a.X.R.transpose.mul b.X.R).mulVec (b.X.R.transpose.mulVec v) =
        a.X.R.transpose.mulVec v := by
    intro v
    rw [Mat33.mulVec_mulVec, Mat33.mul_assoc, hB.1, Mat33.mul_one]
  simp only [findBodyVelocityInAnotherBody, findBodyRotationInAnotherBody,
    findBodyOriginLocationInAnotherBody, findStationAtGroundPoint,
    Transform.apply, Transform.inv, shiftSpatial, negSpatial, reexpressSpatial,
    getBodyRotation, getBodyOriginLocation, getBodyAngularVelocity,
    getBodyOriginVelocity]
  refine SpatialVec.ext ?_ ?_
  · simp only [hcol]
    ext <;> simp [Mat33.mulVec, Vec3.dot] <;> ring
  · simp only [hcol, ← Mat33.mulVec_neg, ← Mat33.mulVec_add,
      Mat33.cross_mulVec hA.transpose]
    apply congrArg
    ext <;> simp [Vec3.cross] <;> ring

/-- Witness for C3 (amended): the corrected symmetry holds on the concrete
pair of bodies used in the counterexample. -/
theorem C3_witness :
    IsRotation (idKin.X.R) ∧ IsRotation (spinKin.X.R) ∧
    findBodyVelocityInAnotherBody spinKin idKin =
      shiftSpatial
        (negSpatial (reexpressSpatial (findBodyRotationInAnotherBody spinKin idKin)
          (findBodyVelocityInAnotherBody idKin spinKin)))
        (findBodyOriginLocationInAnotherBody spinKin idKin) :=
  ⟨by decide, by decide,
   C3_velocity_symmetry_with_shift spinKin idKin (by decide) (by decide)⟩

/-! ### Distance-operator lemmas over `ℝ` -/

lemma norm3_zero : norm3 0 = 0 := by
  simp [norm3, Vec3.dot]

lemma norm3_eq_zero_iff (v : Vec3 ℝ) : norm3 v = 0 ↔ v = 0 := by
  constructor
  · intro h
    have hle : Vec3.dot v v ≤ 0 := Real.sqrt_eq_zero'.mp h
    have h1 : v.x * v.x + v.y * v.y + v.z * v.z ≤ 0 := by
      simpa [Vec3.dot] using hle
    have hx : v.x = 0 := by
      nlinarith [mul_self_nonneg v.x, mul_self_nonneg v.y, mul_self_nonneg v.z]
    have hy : v.y = 0 := by
      nlinarith [mul_self_nonneg v.x, mul_self_nonneg v.y, mul_self_nonneg v.z]
    have hz : v.z = 0 := by
      nlinarith [mul_self_nonneg v.x, mul_self_nonneg v.y, mul_self_nonneg v.z]
    exact Vec3.ext hx hy hz
  · rintro rfl
    exact norm3_zero

/-- The first time-derivative operator on distinct bodies, written with the
separate station operators. -/
lemma calcStationToStationDistanceTimeDerivative_false (b bodyA : BodyKin ℝ)
    (pB pA : Vec3 ℝ) :
    calcStationToStationDistanceTimeDerivative false b bodyA pB pA =
      (if norm3 (findStationLocationInGround bodyA pA -
                 findStationLocationInGround b pB) = 0
       then norm3 (findStationVelocityInGround bodyA pA -
                   findStationVelocityInGround b pB)
       else Vec3.dot (findStationVelocityInGround bodyA pA -
                      findStationVelocityInGround b pB)
         (Vec3.smul (norm3 (findStationLocationInGround bodyA pA -
                            findStationLocationInGround b pB))⁻¹
            (findStationLocationInGround bodyA pA -
             findStationLocationInGround b pB))) := by
  unfold calcStationToStationDistanceTimeDerivative
  rw [findStationLocationAndVelocityInGround_eq,
    findStationLocationAndVelocityInGround_eq]
  simp

/-- The second time-derivative operator on distinct bodies, written with the
separate station operators. -/
lemma calcStationToStationDistance2ndTimeDerivative_false (b bodyA : BodyKin ℝ)
    (pB pA : Vec3 ℝ) :
    calcStationToStationDistance2ndTimeDerivative false b bodyA pB pA =
      (if norm3 (findStationLocationInGround bodyA pA -
                 findStationLocationInGround b pB) = 0
       then
        if norm3 (findStationVelocityInGround bodyA pA -
                  findStationVelocityInGround b pB) = 0
        then norm3 (findStationAccelerationInGround bodyA pA -
                    findStationAccelerationInGround b pB)
        else Vec3.dot (findStationAccelerationInGround bodyA pA -
                       findStationAccelerationInGround b pB)
          (Vec3.smul (norm3 (findStationVelocityInGround bodyA pA -
                             findStationVelocityInGround b pB))⁻¹
             (findStationVelocityInGround bodyA pA -
              findStationVelocityInGround b pB))
       else
        Vec3.dot (findStationAccelerationInGround bodyA pA -
                  findStationAccelerationInGround b pB)
          (Vec3.smul (norm3 (findStationLocationInGround bodyA pA -
                             findStationLocationInGround b pB))⁻¹
             (findStationLocationInGround bodyA pA -
              findStationLocationInGround b pB)) +
        Vec3.dot
          ((findStationVelocityInGround bodyA pA - findStationVelocityInGround b pB) -
           Vec3.smul
             (Vec3.dot
               (findStationVelocityInGround bodyA pA - findStationVelocityInGround b pB)
               (Vec3.smul (norm3 (findStationLocationInGround bodyA pA -
                                  findStationLocationInGround b pB))⁻¹
                  (findStationLocationInGround bodyA pA -
                   findStationLocationInGround b pB)))
             (Vec3.smul (norm3 (findStationLocationInGround bodyA pA -
                                findStationLocationInGround b pB))⁻¹
                (findStationLocationInGround bodyA pA -
                 findStationLocationInGround b pB)))
          (findStationVelocityInGround bodyA pA - findStationVelocityInGround b pB) /
          norm3 (findStationLocationInGround bodyA pA -
                 findStationLocationInGround b pB)) := by
  unfold calcStationToStationDistance2ndTimeDerivative
  rw [findStationLocationVelocityAndAccelerationInGround_eq,
    findStationLocationVelocityAndAccelerationInGround_eq]
  simp

/-- Claim C2: on a realized pair of distinct bodies whose stations are
currently coincident in space, the distance rate operator returns the
magnitude of the stations' relative velocity, and the second-derivative
operator returns the relative-acceleration component along the relative
velocity direction, or the relative acceleration magnitude when the relative
velocity is zero; no branch signals an error. -/
theorem C2_coincident_station_rates (b bodyA : BodyKin ℝ) (pB pA : Vec3 ℝ)
    (hco : findStationLocationInGround b pB = findStationLocationInGround bodyA pA) :
    calcStationToStationDistanceTimeDerivative false b bodyA pB pA =
      norm3 (findStationVelocityInGround bodyA pA - findStationVelocityInGround b pB) ∧
    (findStationVelocityInGround bodyA pA - findStationVelocityInGround b pB = 0 →
      calcStationToStationDistance2ndTimeDerivative false b bodyA pB pA =
        norm3 (findStationAccelerationInGround bodyA pA -
               findStationAccelerationInGround b pB)) ∧
    (findStationVelocityInGround bodyA pA - findStationVelocityInGround b pB ≠ 0 →
      calcStationToStationDistance2ndTimeDerivative false b bodyA pB pA =
        Vec3.dot (findStationAccelerationInGround bodyA pA -
                  findStationAccelerationInGround b pB)
          (Vec3.smul (norm3 (findStationVelocityInGround bodyA pA -
                             findStationVelocityInGround b pB))⁻¹
             (findStationVelocityInGround bodyA pA -
              findStationVelocityInGround b pB))) := by
  have hr : findStationLocationInGround bodyA pA - findStationLocationInGround b pB = 0 := by
    rw [← hco]
    ext <;> simp
  refine ⟨?_, ?_, ?_⟩
  · rw [calcStationToStationDistanceTimeDerivative_false, hr, norm3_zero, if_pos rfl]
  · intro hv
    rw [calcStationToStationDistance2ndTimeDerivative_false, hr, norm3_zero,
      if_pos rfl, hv, norm3_zero, if_pos rfl]
  · intro hv
    have hnv : norm3 (findStationVelocityInGround bodyA pA -
        findStationVelocityInGround b pB) ≠ 0 :=
      fun h => hv ((norm3_eq_zero_iff _).mp h)
    rw [calcStationToStationDistance2ndTimeDerivative_false, hr, norm3_zero,
      if_pos rfl, if_neg hnv]

/-- Witness for C2: two bodies at rest with both stations at the Ground
origin are coincident, and the rate operator evaluates to the relative speed
magnitude there. -/
theorem C2_witness :
    calcStationToStationDistanceTimeDerivative false idKinR idKinR 0 0 =
      norm3 (findStationVelocityInGround idKinR 0 - findStationVelocityInGround idKinR 0) :=
  (C2_coincident_station_rates idKinR idKinR 0 0 rfl).1

/-! ### Multibody-tree lemmas -/

lemma foldl_addBody_error (ops : List Nat) (e : SimbodyError) :
    List.foldl (fun acc parent => acc.bind (fun t => addBody t parent))
      (Except.error e) ops = Except.error e := by
  induction ops with
  | nil => rfl
  | cons p ops ih => exact ih

lemma groundOnlyTree_invariant : TreeInvariant groundOnlyTree := by
  constructor
  · rfl
  · intro i hi0 hilen
    simp [groundOnlyTree] at hilen
    omega

lemma addBody_invariant {t t2 : MbTree} {p : Nat} (hInv : TreeInvariant t)
    (h : addBody t p = Except.ok t2) : TreeInvariant t2 := by
  unfold addBody at h
  by_cases hp : p < t.length
  · rw [if_pos hp] at h
    injection h with h
    subst h
    have h0 : 0 < t.length := by
      cases t with
      | nil => exact absurd hInv.1 (by simp)
      | cons x xs => simp
    constructor
    · rw [List.get?_append h0]
      exact hInv.1
    · intro i hi0 hilen
      rw [List.length_append, List.length_singleton] at hilen
      by_cases hit : i < t.length
      · obtain ⟨q, hq, hqlt⟩ := hInv.2 i hi0 hit
        exact ⟨q, by rw [List.get?_append hit]; exact hq, hqlt⟩
      · have hie : i = t.length := by omega
        subst hie
        exact ⟨p, List.get?_concat_length t (some p), hp⟩
  · rw [if_neg hp] at h
    cases h

lemma foldl_addBody_invariant (ops : List Nat) :
    ∀ (t0 t : MbTree), TreeInvariant t0 →
      List.foldl (fun acc parent => acc.bind (fun t => addBody t parent))
        (Except.ok t0) ops = Except.ok t →
      TreeInvariant t := by
  induction ops with
  | nil =>
    intro t0 t h0 h
    injection h with h
    subst h
    exact h0
  | cons p ops ih =>
    intro t0 t h0 h
    have h2 : List.foldl (fun acc parent => acc.bind (fun t => addBody t parent))
        (addBody t0 p) ops = Except.ok t := h
    cases hab : addBody t0 p with
    | error e =>
      rw [hab, foldl_addBody_error] at h2
      cases h2
    | ok t1 =>
      rw [hab] at h2
      exact ih t1 t (addBody_invariant h0 hab) h2

lemma buildTree_invariant {ops : List Nat} {t : MbTree}
    (h : buildTree ops = Except.ok t) : TreeInvariant t :=
  foldl_addBody_invariant ops groundOnlyTree t groundOnlyTree_invariant h

lemma parent_lt_of_invariant {t : MbTree} (hInv : TreeInvariant t) {i p : Nat}
    (hp : List.get? t i = some (some p)) : p < i := by
  have hi0 : 0 < i := by
    rcases Nat.eq_zero_or_pos i with h0 | h0
    · subst h0
      rw [hInv.1] at hp
      injection hp with hp
      cases hp
    · exact h0
  have hilen : i < t.length := by
    rcases List.get?_eq_some.mp hp with ⟨hlt, _⟩
    exact hlt
  obtain ⟨q, hq, hqlt⟩ := hInv.2 i hi0 hilen
  rw [hp] at hq
  injection hq with hq
  injection hq with hq
  omega

lemma levelAux_stable (t : MbTree) (hInv : TreeInvariant t) :
    ∀ i f1 f2, i < f1 → i < f2 → levelAux f1 t i = levelAux f2 t i := by
  intro i
  induction i using Nat.strong_induction_on with
  | _ i ih =>
    intro f1 f2 h1 h2
    obtain ⟨g1, rfl⟩ : ∃ g1, f1 = g1 + 1 := ⟨f1 - 1, by omega⟩
    obtain ⟨g2, rfl⟩ : ∃ g2, f2 = g2 + 1 := ⟨f2 - 1, by omega⟩
    simp only [levelAux]
    cases hg : List.get? t i with
    | none => rfl
    | some op =>
      cases op with
      | none => rfl
      | some p =>
        have hpi : p < i := parent_lt_of_invariant hInv hg
        show levelAux g1 t p + 1 = levelAux g2 t p + 1
        rw [ih p hpi g1 g2 (by omega) (by omega)]

lemma getLevel_parent (t : MbTree) (hInv : TreeInvariant t) (i p : Nat)
    (hp : List.get? t i = some (some p)) :
    getLevelInMultibodyTree t i = getLevelInMultibodyTree t p + 1 := by
  unfold getLevelInMultibodyTree
  have hstep : levelAux (i + 1) t i = levelAux i t p + 1 := by
    simp only [levelAux, hp]
  rw [hstep,
    levelAux_stable t hInv p i (p + 1) (parent_lt_of_invariant hInv hp) (Nat.lt_succ_self p)]

/-- Claim C7: in every successfully finalized tree, Ground is node 0 with no
parent, every other node's stored parent index is strictly smaller than its
own index, and a node's level equals its parent's level plus one; the
property holds for every tree reachable by `addBody` operations. -/
theorem C7_tree_index_invariant (ops : List Nat) (t : MbTree)
    (h : buildTree ops = Except.ok t) :
    List.get? t 0 = some none ∧
    (∀ i, 0 < i → i < t.length → ∃ p, List.get? t i = some (some p) ∧ p < i) ∧
    (∀ i p, List.get? t i = some (some p) →
      getLevelInMultibodyTree t i = getLevelInMultibodyTree t p + 1) := by
  have hInv := buildTree_invariant h
  exact ⟨hInv.1, hInv.2, fun i p hp => getLevel_parent t hInv i p hp⟩

/-- Witness for C7: a two-body chain Ground → 1 → 2 is built successfully
and node 2's level is its parent's level plus one. -/
theorem C7_witness :
    buildTree [0, 1] = Except.ok [none, some 0, some 1] ∧
    getLevelInMultibodyTree [none, some 0, some 1] 2 =
      getLevelInMultibodyTree [none, some 0, some 1] 1 + 1 :=
  ⟨rfl, (C7_tree_index_invariant [0, 1] [none, some 0, some 1] rfl).2.2 2 1 rfl⟩

end Simbody
